import Mathlib

/-!
Shallow embedding of `src/services/llm-integration-service.ts` (an LLM
request router with provider registry, per-provider adapters, a TTL
response cache, a single bounded provider-fallback retry, and streaming
dispatch), together with theorems settling the frozen claims about it.

Conventions of the embedding:
* JSON values (`any`-typed response bodies) are the inductive `Json`;
  JavaScript member access, optional chaining, truthiness and the `||`
  default operator are modelled by the `js…` helpers below, with thrown
  `TypeError`s represented in `Except`.
* The HTTP transport (`axios.post`, in both its buffered and streamed
  form) and the `JSON.parse` builtin are external collaborators; they are
  supplied as components of an `Env` value.
* `Date.now()` is modelled by an explicit `now : Int` argument (one
  reading of the clock per router call).
* The module-level `LLM_PROVIDERS` record is an association list passed
  in `Env.providers`; the concrete registry of the source, parametrised
  by the three environment API keys, is `LLM_PROVIDERS` below.
-/

/-- JSON-like runtime values (the `any` data flowing through the service).
Numbers are exact rationals. -/
inductive Json where
  | null : Json
  | bool : Bool → Json
  | num : Rat → Json
  | str : String → Json
  | arr : List Json → Json
  | obj : List (String × Json) → Json

/-- First-match field lookup in a JSON object (JavaScript property read on
a plain object; absent keys give `undefined`, modelled as `none`). -/
def lookupField : List (String × Json) → String → Option Json
  | [], _ => none
  | (k, v) :: rest, key => if k = key then some v else lookupField rest key

/-- JavaScript truthiness of a defined value. -/
def Json.truthy : Json → Bool
  | .null => false
  | .bool b => b
  | .num q => q != 0
  | .str s => s != ""
  | .arr _ => true
  | .obj _ => true

/-- JavaScript string coercion, used where a `||`-defaulted value of
declared type `string` is consumed. Exact for strings (the only case the
service's data ever exercises); array/object coercion is approximated by
constants. -/
def jsToString : Json → String
  | .null => "null"
  | .bool true => "true"
  | .bool false => "false"
  | .num q => toString q
  | .str s => s
  | .arr _ => ""
  | .obj _ => "[object Object]"

/-- Plain member access `v.k` on a defined value: throws a `TypeError` on
`null`, reads the field on objects, and yields `undefined` on other
primitives (builtin properties are not modelled). -/
def jsMember (v : Json) (k : String) : Except String (Option Json) :=
  match v with
  | .null => .error "TypeError"
  | .obj fields => .ok (lookupField fields k)
  | _ => .ok none

/-- Plain index access `v[i]` where `v` may be `undefined`: throws a
`TypeError` on `undefined` or `null`. -/
def jsIndexAccess (v : Option Json) (i : Nat) : Except String (Option Json) :=
  match v with
  | none => .error "TypeError"
  | some .null => .error "TypeError"
  | some (.arr xs) => .ok xs[i]?
  | some _ => .ok none

/-- Optional-chaining member access `v?.k`: short-circuits to `undefined`
on nullish `v`, never throws. -/
def jsOptMember (v : Option Json) (k : String) : Option Json :=
  match v with
  | none => none
  | some .null => none
  | some (.obj fields) => lookupField fields k
  | some _ => none

/-- The pattern `v || ''` on a possibly-undefined value consumed as a
string. -/
def jsOrEmptyString (v : Option Json) : String :=
  match v with
  | some j => if j.truthy then jsToString j else ""
  | none => ""

/-- The pattern `v || d` on a possibly-undefined JSON value. -/
def jsOrJson (v : Option Json) (d : Json) : Json :=
  match v with
  | some j => if j.truthy then j else d
  | none => d

/-- JavaScript `+` restricted to the shapes the service produces: numeric
addition on numbers, string concatenation of coercions otherwise. -/
def jsAdd : Json → Json → Json
  | .num a, .num b => .num (a + b)
  | a, b => .str (jsToString a ++ jsToString b)

/-- The template-literal default `s || d` for an optional string field
(`undefined` and the empty string are both falsy). -/
def jsStrOr (v : Option String) (d : String) : String :=
  match v with
  | some s => if s = "" then d else s
  | none => d

/-- The default `n || d` for an optional numeric field (`undefined` and
`0` are both falsy). -/
def jsNatOr (v : Option Nat) (d : Nat) : Nat :=
  match v with
  | some n => if n = 0 then d else n
  | none => d

/-- The default `q || d` for an optional rational field (`undefined` and
`0` are both falsy). -/
def jsRatOr (v : Option Rat) (d : Rat) : Rat :=
  match v with
  | some q => if q = 0 then d else q
  | none => d

/-- Truthiness of an optional string (`undefined` and `""` are falsy). -/
def jsTruthyOptStr (v : Option String) : Bool :=
  match v with
  | some s => s != ""
  | none => false

/-- Splitting of a character list at every occurrence of a separator
(JavaScript `String.prototype.split` with a one-character separator:
empty fragments are kept, `"" ↦ [""]`). -/
def splitCharsOn (sep : Char) : List Char → List (List Char)
  | [] => [[]]
  | c :: rest =>
    let r := splitCharsOn sep rest
    if c = sep then [] :: r
    else
      match r with
      | [] => [[c]]
      | g :: gs => (c :: g) :: gs

/-- `s.split('\n')` of JavaScript, modelled over the character list so
that it evaluates by kernel reduction. -/
def jsSplitNewline (s : String) : List String :=
  (splitCharsOn '\n' s.toList).map (fun cs => String.mk cs)

/-- Whitespace recognised by `String.prototype.trim` (the characters the
service's data can contain). -/
def isJsWhitespace (c : Char) : Bool :=
  c = ' ' || c = '\t' || c = '\n' || c = '\r'

/-- `s.trim()` of JavaScript. -/
def jsTrim (s : String) : String :=
  String.mk (((s.toList.dropWhile isJsWhitespace).reverse.dropWhile isJsWhitespace).reverse)

/-- `s.startsWith(p)` of JavaScript. -/
def jsStartsWith (s p : String) : Bool :=
  List.isPrefixOf p.toList s.toList

/-- `s.substring(n)` of JavaScript (drop the first `n` characters). -/
def jsDrop (s : String) (n : Nat) : String :=
  String.mk (s.toList.drop n)

/-- The literal `0.7` as an exact rational, given in constructor form so
that it evaluates by kernel reduction. -/
def sevenTenths : Rat := ⟨7, 10, by decide, by decide⟩

/-- `LLMProviderConfig` of the source: one provider descriptor. -/
structure LLMProviderConfig where
  name : String
  apiEndpoint : String
  apiKey : String
  models : List String
  maxTokens : Nat
  streamingSupport : Bool
  priority : Int
deriving DecidableEq

/-- `LLMRequest` of the source. `onStreamingUpdate` records the presence
of the callback (its invocation arguments are reported in the outcome's
`streamUpdates` trace); `streaming` holds the destructured value with its
default `false` applied. -/
structure LLMRequest where
  prompt : String
  model : Option String := none
  maxTokens : Option Nat := none
  temperature : Option Rat := none
  provider : Option String := none
  streaming : Bool := false
  onStreamingUpdate : Bool := false

/-- Token-usage record; the fields hold the raw `||`-defaulted JSON
values the source stores. -/
structure TokenUsageInfo where
  prompt : Json
  completion : Json
  total : Json

/-- `LLMResponse` of the source. -/
structure LLMResponse where
  text : String
  provider : String
  model : String
  tokenUsage : Option TokenUsageInfo := none

/-- The provider registry is a string-keyed record, kept as an
association list in declaration order (JavaScript object insertion
order). -/
abbrev ProviderRegistry := List (String × LLMProviderConfig)

/-- Record key lookup `LLM_PROVIDERS[name]`. -/
def recordLookup : ProviderRegistry → String → Option LLMProviderConfig
  | [], _ => none
  | (k, v) :: rest, key => if k = key then some v else recordLookup rest key

/-- `Object.values(LLM_PROVIDERS)` in declaration order. -/
def objectValues (reg : ProviderRegistry) : List LLMProviderConfig :=
  reg.map Prod.snd

/-- The `openai` descriptor of `LLM_PROVIDERS`, with its key taken from
the environment. -/
def openaiConfig (key : String) : LLMProviderConfig :=
  { name := "OpenAI"
    apiEndpoint := "https://api.openai.com/v1/chat/completions"
    apiKey := key
    models := ["gpt-4-turbo", "gpt-3.5-turbo"]
    maxTokens := 4096
    streamingSupport := true
    priority := 1 }

/-- The `claude` descriptor of `LLM_PROVIDERS`. -/
def claudeConfig (key : String) : LLMProviderConfig :=
  { name := "Claude"
    apiEndpoint := "https://api.anthropic.com/v1/messages"
    apiKey := key
    models := ["claude-3-5-sonnet"]
    maxTokens := 4096
    streamingSupport := true
    priority := 2 }

/-- The `deepseek` descriptor of `LLM_PROVIDERS`. -/
def deepseekConfig (key : String) : LLMProviderConfig :=
  { name := "DeepSeek"
    apiEndpoint := "https://api.deepseek.com/v1/chat/completions"
    apiKey := key
    models := ["deepseek-chat"]
    maxTokens := 2048
    streamingSupport := false
    priority := 3 }

/-- The module-level `LLM_PROVIDERS` record, parametrised by the three
API keys read from the process environment. -/
def LLM_PROVIDERS (openaiKey claudeKey deepseekKey : String) : ProviderRegistry :=
  [("openai", openaiConfig openaiKey),
   ("claude", claudeConfig claudeKey),
   ("deepseek", deepseekConfig deepseekKey)]

/-- Cache fingerprint. The source interpolates the five `||`-defaulted
components into one template string; the key is modelled as the tuple of
those components (the claims depend only on component equality). -/
structure CacheKey where
  provider : String
  model : String
  maxTokens : Nat
  temperature : Rat
  prompt : String
deriving DecidableEq

/-- `createCacheKey` of the source. -/
def createCacheKey (request : LLMRequest) : CacheKey :=
  { provider := jsStrOr request.provider "auto"
    model := jsStrOr request.model "default"
    maxTokens := jsNatOr request.maxTokens 0
    temperature := jsRatOr request.temperature (sevenTenths)
    prompt := request.prompt }

/-- `CacheItem` of the source. -/
structure CacheItem where
  response : LLMResponse
  timestamp : Int

/-- The module-level `responseCache` record: an association list where a
put prepends and a read takes the first match. -/
abbrev ResponseCache := List (CacheKey × CacheItem)

/-- Read `responseCache[key]`. -/
def cacheLookup : ResponseCache → CacheKey → Option CacheItem
  | [], _ => none
  | (k, v) :: rest, key => if k = key then some v else cacheLookup rest key

/-- Write `responseCache[key] = item` (unconditional overwrite). -/
def cachePut (c : ResponseCache) (k : CacheKey) (item : CacheItem) : ResponseCache :=
  (k, item) :: c

/-- `CACHE_DURATION`: 30 minutes in milliseconds. -/
def CACHE_DURATION : Int := 30 * 60 * 1000

/-- The comparison key of the sort comparator `(a, b) => a.priority - b.priority`. -/
def prioLE (a b : LLMProviderConfig) : Prop :=
  a.priority ≤ b.priority

instance : DecidableRel prioLE := fun a b =>
  inferInstanceAs (Decidable (a.priority ≤ b.priority))

instance : IsTotal LLMProviderConfig prioLE :=
  ⟨fun a b => Int.le_total a.priority b.priority⟩

instance : IsTrans LLMProviderConfig prioLE :=
  ⟨fun _ _ _ h h' => le_trans h h'⟩

/-- `.sort((a, b) => a.priority - b.priority)`: JavaScript `sort` is
stable, so it is modelled by stable insertion sort with the comparator's
`≤`. -/
def sortByPriority (l : List LLMProviderConfig) : List LLMProviderConfig :=
  List.insertionSort prioLE l

/-- The expression `Object.values(LLM_PROVIDERS).filter(p => p.apiKey)
.sort((a, b) => a.priority - b.priority)`, shared by `getBestProvider`
and `LLMService.getAvailableProviders`. -/
def availableByPriority (reg : ProviderRegistry) : List LLMProviderConfig :=
  sortByPriority ((objectValues reg).filter (fun provider => provider.apiKey != ""))

/-- `getBestProvider` of the source. -/
def getBestProvider (reg : ProviderRegistry) (requestedProvider : Option String) :
    Option LLMProviderConfig :=
  let explicit : Option LLMProviderConfig :=
    match requestedProvider with
    | none => none
    | some k =>
      if k = "" then none
      else
        match recordLookup reg k with
        | none => none
        | some provider => if provider.apiKey = "" then none else some provider
  match explicit with
  | some provider => some provider
  | none => (availableByPriority reg).head?

/-- `LLMService.getAvailableProviders` of the source. -/
def getAvailableProviders (reg : ProviderRegistry) : List LLMProviderConfig :=
  (objectValues reg).filter (fun provider => provider.apiKey != "")
    |> sortByPriority

/-- The fixed system instruction embedded by every adapter. -/
def SYSTEM_INSTRUCTION : String :=
  "Ești un asistent specializat în analiza datelor despre case de schimb valutar din România. Răspunde concis și direct, oferind informații relevante și factuale."

/-- One entry of a `messages` array. -/
structure ChatMessage where
  role : String
  content : String
deriving DecidableEq

/-- Provider-native request body built by `formatPromptForProvider`; the
optional `system` field is used by the Claude shape, `stream` is set by
the streaming dispatch. -/
structure RequestBody where
  model : String
  messages : List ChatMessage
  max_tokens : Nat
  temperature : Rat
  system : Option String := none
  stream : Bool := false
deriving DecidableEq

/-- `formatPromptForProvider` of the source; the `default` branch throws
`ConfigurationError`-style (`Provider necunoscut`). -/
def formatPromptForProvider (provider : LLMProviderConfig) (prompt : String)
    (model : String) : Except String RequestBody :=
  match provider.name with
  | "OpenAI" =>
    .ok { model := jsStrOr (some model) (jsStrOr provider.models.head? "")
          messages := [⟨"system", SYSTEM_INSTRUCTION⟩, ⟨"user", prompt⟩]
          max_tokens := 1000
          temperature := sevenTenths }
  | "Claude" =>
    .ok { model := jsStrOr (some model) (jsStrOr provider.models.head? "")
          messages := [⟨"user", prompt⟩]
          max_tokens := 1000
          temperature := sevenTenths
          system := some SYSTEM_INSTRUCTION }
  | "DeepSeek" =>
    .ok { model := jsStrOr (some model) (jsStrOr provider.models.head? "")
          messages := [⟨"system", SYSTEM_INSTRUCTION⟩, ⟨"user", prompt⟩]
          max_tokens := 1000
          temperature := sevenTenths }
  | _ => .error ("Provider necunoscut: " ++ provider.name)

/-- `extractResponseFromProvider` of the source. The chains
`responseData.choices[0]?.message?.content || ''` and
`responseData.content[0]?.text || ''` begin with two plain accesses
(which throw a `TypeError` when the top-level field is nullish or
absent) before optional chaining takes over. -/
def extractResponseFromProvider (provider : LLMProviderConfig) (responseData : Json) :
    Except String String :=
  match provider.name with
  | "OpenAI" => do
    let choices ← jsMember responseData "choices"
    let c0 ← jsIndexAccess choices 0
    .ok (jsOrEmptyString (jsOptMember (jsOptMember c0 "message") "content"))
  | "Claude" => do
    let content ← jsMember responseData "content"
    let c0 ← jsIndexAccess content 0
    .ok (jsOrEmptyString (jsOptMember c0 "text"))
  | "DeepSeek" => do
    let choices ← jsMember responseData "choices"
    let c0 ← jsIndexAccess choices 0
    .ok (jsOrEmptyString (jsOptMember (jsOptMember c0 "message") "content"))
  | _ => .error ("Provider necunoscut: " ++ provider.name)

/-- Body of `extractTokenUsage` before its `try`/`catch` wrapper: the
plain read `responseData.usage` can throw, the rest is optional
chaining with `|| 0` defaults; unknown providers yield `undefined`. -/
def extractTokenUsageBody (provider : LLMProviderConfig) (responseData : Json) :
    Except String (Option TokenUsageInfo) :=
  match provider.name with
  | "OpenAI" => do
    let usage ← jsMember responseData "usage"
    .ok (some
      { prompt := jsOrJson (jsOptMember usage "prompt_tokens") (.num 0)
        completion := jsOrJson (jsOptMember usage "completion_tokens") (.num 0)
        total := jsOrJson (jsOptMember usage "total_tokens") (.num 0) })
  | "Claude" => do
    let usage ← jsMember responseData "usage"
    let usage2 ← jsMember responseData "usage"
    let usage3 ← jsMember responseData "usage"
    let usage4 ← jsMember responseData "usage"
    .ok (some
      { prompt := jsOrJson (jsOptMember usage "input_tokens") (.num 0)
        completion := jsOrJson (jsOptMember usage2 "output_tokens") (.num 0)
        total := jsAdd (jsOrJson (jsOptMember usage3 "input_tokens") (.num 0))
                       (jsOrJson (jsOptMember usage4 "output_tokens") (.num 0)) })
  | "DeepSeek" => do
    let usage ← jsMember responseData "usage"
    .ok (some
      { prompt := jsOrJson (jsOptMember usage "prompt_tokens") (.num 0)
        completion := jsOrJson (jsOptMember usage "completion_tokens") (.num 0)
        total := jsOrJson (jsOptMember usage "total_tokens") (.num 0) })
  | _ => .ok none

/-- `extractTokenUsage` of the source: the whole body is wrapped in
`try`/`catch` and any exception degrades to `undefined`. -/
def extractTokenUsage (provider : LLMProviderConfig) (responseData : Json) :
    Option TokenUsageInfo :=
  match extractTokenUsageBody provider responseData with
  | .ok v => v
  | .error _ => none

/-- External collaborators of one router run: the provider registry
established at startup, the buffered and streamed transport calls
(`axios.post`), and the `JSON.parse` builtin. A transport `Except.error`
is a rejected promise (network failure or non-2xx status). The streamed
transport yields the raw data chunks the connection will deliver. -/
structure Env where
  providers : ProviderRegistry
  post : LLMProviderConfig → RequestBody → Except String Json
  postStream : LLMProviderConfig → RequestBody → Except String (List String)
  parseJson : String → Except String Json

/-- One transport dispatch observed during a router call. -/
structure DispatchEvent where
  providerName : String
  body : RequestBody
  streamed : Bool
deriving DecidableEq

/-- The per-chunk `data` handler's loop over the non-blank lines of one
chunk: accumulates extracted increments, records each
`onStreamingUpdate(accumulatedText)` invocation, stops at a `[DONE]`
payload (the handler's early `return`, which only ends this chunk), and
swallows malformed payloads. -/
def processLines (env : Env) (provider : LLMProviderConfig) (acc : String) :
    List String → String × List String
  | [] => (acc, [])
  | line :: rest =>
    if jsStartsWith line "data: " then
      let data := jsDrop line 6
      if data = "[DONE]" then (acc, [])
      else
        match (do
            let parsed ← env.parseJson data
            extractResponseFromProvider provider parsed : Except String String) with
        | .error _ => processLines env provider acc rest
        | .ok content =>
          if content = "" then processLines env provider acc rest
          else
            let acc2 := acc ++ content
            let next := processLines env provider acc2 rest
            (next.1, acc2 :: next.2)
    else processLines env provider acc rest

/-- Processing of the whole sequence of stream chunks by the `data`
handler: each chunk is split on newlines, blank lines are dropped, and
the lines are folded through `processLines`. Returns the final
accumulated text and the list of `onStreamingUpdate` arguments. -/
def processChunks (env : Env) (provider : LLMProviderConfig) (acc : String) :
    List String → String × List String
  | [] => (acc, [])
  | chunk :: more =>
    let lines := (jsSplitNewline chunk).filter (fun line => jsTrim line != "")
    let step := processLines env provider acc lines
    let next := processChunks env provider step.1 more
    (next.1, step.2 ++ next.2)

/-- Outcome of the `try` block of `sendRequest` (format, dispatch,
extraction, and the pending cache write). `store` is the cache write the
synchronous path performs on success; `dispatches` records transport
invocations (also failed ones); `streamUpdates` records the
`onStreamingUpdate` arguments the registered handler will deliver. -/
structure TryOutcome where
  result : Except String LLMResponse
  store : Option (CacheKey × CacheItem) := none
  dispatches : List DispatchEvent := []
  streamUpdates : List String := []

/-- The `try` block of `sendRequest` for a selected provider and model.
On the streaming path the handler is registered and the function
returns at once, so the returned `text` is the value `accumulatedText`
holds at return time: the empty string (the source itself calls this a
placeholder response); the handler's later effects appear only in
`streamUpdates`. The synchronous path extracts text and usage and
schedules the cache write. -/
def tryDispatch (env : Env) (now : Int) (request : LLMRequest)
    (provider : LLMProviderConfig) (selectedModel : String) : TryOutcome :=
  match formatPromptForProvider provider request.prompt selectedModel with
  | .error e => { result := .error e }
  | .ok requestData =>
    if request.streaming && provider.streamingSupport && request.onStreamingUpdate then
      let body := { requestData with stream := true }
      let ev : DispatchEvent := ⟨provider.name, body, true⟩
      match env.postStream provider body with
      | .error e => { result := .error e, dispatches := [ev] }
      | .ok chunks =>
        let handled := processChunks env provider "" chunks
        { result := .ok { text := "", provider := provider.name, model := selectedModel }
          dispatches := [ev]
          streamUpdates := handled.2 }
    else
      let ev : DispatchEvent := ⟨provider.name, requestData, false⟩
      match env.post provider requestData with
      | .error e => { result := .error e, dispatches := [ev] }
      | .ok responseData =>
        match extractResponseFromProvider provider responseData with
        | .error e => { result := .error e, dispatches := [ev] }
        | .ok responseText =>
          let llmResponse : LLMResponse :=
            { text := responseText
              provider := provider.name
              model := selectedModel
              tokenUsage := extractTokenUsage provider responseData }
          { result := .ok llmResponse
            store := some (createCacheKey request, ⟨llmResponse, now⟩)
            dispatches := [ev] }

/-- Error before or inside the `try` block of one `sendRequest` level. -/
inductive CoreErr where
  | noProvider : CoreErr
  | dispatchFailed : String → CoreErr

/-- Outcome of one `sendRequest` level before the `catch` clause acts. -/
structure CoreOutcome where
  result : Except CoreErr LLMResponse
  cache : ResponseCache
  dispatches : List DispatchEvent
  streamUpdates : List String

/-- Provider selection, model selection and the `try` block of one
`sendRequest` level (everything after the cache check). -/
def selectAndDispatch (env : Env) (now : Int) (cache : ResponseCache)
    (request : LLMRequest) : CoreOutcome :=
  match getBestProvider env.providers request.provider with
  | none => ⟨.error .noProvider, cache, [], []⟩
  | some provider =>
    let selectedModel := jsStrOr request.model (jsStrOr provider.models.head? "")
    let attempt := tryDispatch env now request provider selectedModel
    match attempt.result with
    | .ok resp =>
      let newCache :=
        match attempt.store with
        | some (k, item) => cachePut cache k item
        | none => cache
      ⟨.ok resp, newCache, attempt.dispatches, attempt.streamUpdates⟩
    | .error e => ⟨.error (.dispatchFailed e), cache, attempt.dispatches, attempt.streamUpdates⟩

/-- One level of `sendRequest` up to (not including) the `catch` clause:
cache check for non-streaming requests, then `selectAndDispatch`. -/
def sendRequestCore (env : Env) (now : Int) (cache : ResponseCache)
    (request : LLMRequest) : CoreOutcome :=
  let fromCache : Option LLMResponse :=
    if request.streaming then none
    else
      match cacheLookup cache (createCacheKey request) with
      | some item =>
        if now - item.timestamp < CACHE_DURATION then some item.response else none
      | none => none
  match fromCache with
  | some cached => ⟨.ok cached, cache, [], []⟩
  | none => selectAndDispatch env now cache request

/-- Errors surfaced to the caller of `sendRequest`. -/
inductive SendError where
  | noProvider : String → SendError
  | comm : String → SendError
deriving DecidableEq

/-- Message of the error thrown when no provider is available. -/
def noProviderMsg : String :=
  "Nu a fost găsit niciun provider LLM disponibil. Verificați cheile API."

/-- Message prepended by the terminal `catch` wrap. -/
def commErrMsg (inner : String) : String :=
  "Eroare la comunicarea cu API-ul LLM: " ++ inner

/-- Result, final cache state, and observable traces of one `sendRequest`
call (the retry's traces included). -/
structure SendOutcome where
  result : Except SendError LLMResponse
  cache : ResponseCache
  dispatches : List DispatchEvent
  streamUpdates : List String

/-- Measure for the bounded retry: the `catch` clause recurses only when
`request.provider` is truthy, and the recursive call clears it. -/
def providerFuel (request : LLMRequest) : Nat :=
  if jsTruthyOptStr request.provider then 1 else 0

/-- `LLMService.sendRequest` of the source. The `catch` clause re-invokes
`sendRequest` once with `provider` cleared when the original request
named a truthy provider, and otherwise wraps the failure message. -/
def sendRequest (env : Env) (now : Int) (cache : ResponseCache)
    (request : LLMRequest) : SendOutcome :=
  let core := sendRequestCore env now cache request
  match core.result with
  | .ok resp => ⟨.ok resp, core.cache, core.dispatches, core.streamUpdates⟩
  | .error .noProvider =>
    ⟨.error (.noProvider noProviderMsg), core.cache, core.dispatches, core.streamUpdates⟩
  | .error (.dispatchFailed e) =>
    if h : jsTruthyOptStr request.provider = true then
      let retry := sendRequest env now cache { request with provider := none }
      ⟨retry.result, retry.cache, core.dispatches ++ retry.dispatches,
        core.streamUpdates ++ retry.streamUpdates⟩
    else
      ⟨.error (.comm (commErrMsg e)), core.cache, core.dispatches, core.streamUpdates⟩
termination_by providerFuel request
decreasing_by
  simp only [providerFuel, h]
  simp [jsTruthyOptStr]

/-- Mapping of one core outcome to the caller-visible outcome when the
`catch` clause does not retry (the request's `provider` is falsy): a
dispatch failure is wrapped in the terminal communication error. -/
def noRetryMap (core : CoreOutcome) : SendOutcome :=
  match core.result with
  | .ok resp => ⟨.ok resp, core.cache, core.dispatches, core.streamUpdates⟩
  | .error .noProvider =>
    ⟨.error (.noProvider noProviderMsg), core.cache, core.dispatches, core.streamUpdates⟩
  | .error (.dispatchFailed e) =>
    ⟨.error (.comm (commErrMsg e)), core.cache, core.dispatches, core.streamUpdates⟩

/-- The single bounded retry of the `catch` clause: one further core
attempt on the request with `provider` cleared. The cleared request can
never take the retry branch again, so this attempt's failure is
terminal. -/
def secondAttempt (env : Env) (now : Int) (cache : ResponseCache)
    (request : LLMRequest) : SendOutcome :=
  noRetryMap (sendRequestCore env now cache { request with provider := none })

/-- `sendRequest` with its bounded recursion unrolled: at most two core
attempts, the second on the cleared request. Proved equal to
`sendRequest` in `sendRequest_eq_flat`. -/
def sendRequestFlat (env : Env) (now : Int) (cache : ResponseCache)
    (request : LLMRequest) : SendOutcome :=
  let core := sendRequestCore env now cache request
  match core.result with
  | .ok resp => ⟨.ok resp, core.cache, core.dispatches, core.streamUpdates⟩
  | .error .noProvider =>
    ⟨.error (.noProvider noProviderMsg), core.cache, core.dispatches, core.streamUpdates⟩
  | .error (.dispatchFailed e) =>
    if jsTruthyOptStr request.provider = true then
      let retry := secondAttempt env now cache request
      ⟨retry.result, retry.cache, core.dispatches ++ retry.dispatches,
        core.streamUpdates ++ retry.streamUpdates⟩
    else
      ⟨.error (.comm (commErrMsg e)), core.cache, core.dispatches, core.streamUpdates⟩

/-- Prompt template of `LLMService.suggestInsights`; `dataContextStr` is
the `JSON.stringify(dataContext)` serialization produced by the caller
side of the helper. -/
def insightsPrompt (dataContextStr : String) : String :=
  "\nAnalizează următoarele date despre casele de schimb valutar și identifică 3-5 insights valoroase sau tendințe interesante:\n\n"
    ++ dataContextStr
    ++ "\n\nRăspunde cu o listă de insights separate prin newline, fără numerotare sau marcatori. Fiecare insight trebuie să fie o propoziție concisă și informativă.\n"

/-- `Partial<LLMRequest>`: the `options` argument of the helpers. -/
structure LLMRequestInit where
  prompt : Option String := none
  model : Option String := none
  maxTokens : Option Nat := none
  temperature : Option Rat := none
  provider : Option String := none
  streaming : Option Bool := none
  onStreamingUpdate : Option Bool := none

/-- The spread `{ prompt, ...options }`: every field present in `options`
wins, including `prompt`; the destructuring defaults of `sendRequest`
are applied to the boolean fields. -/
def mergeRequest (prompt : String) (options : LLMRequestInit) : LLMRequest :=
  { prompt := options.prompt.getD prompt
    model := options.model
    maxTokens := options.maxTokens
    temperature := options.temperature
    provider := options.provider
    streaming := options.streaming.getD false
    onStreamingUpdate := options.onStreamingUpdate.getD false }

/-- The response post-processing of `suggestInsights`: split on line
breaks, trim each line, drop empty lines. -/
def parseInsights (text : String) : List String :=
  ((jsSplitNewline text).map jsTrim).filter (fun line => line.length > 0)

/-- `LLMService.suggestInsights` of the source. -/
def suggestInsights (env : Env) (now : Int) (cache : ResponseCache)
    (dataContextStr : String) (options : LLMRequestInit) :
    Except SendError (List String) × ResponseCache :=
  let outcome := sendRequest env now cache (mergeRequest (insightsPrompt dataContextStr) options)
  match outcome.result with
  | .ok response => (.ok (parseInsights response.text), outcome.cache)
  | .error e => (.error e, outcome.cache)

/-- `LLMService.clearCache` of the source: deletes every key. -/
def clearCache (_cache : ResponseCache) : ResponseCache := []

/-- Example registry of the spec: `A` has priority 1 and an empty
credential, `B` priority 2 and a set credential, `C` priority 3 and a
set credential. -/
def cfgA : LLMProviderConfig :=
  ⟨"A", "https://a.example/v1", "", ["a-model"], 1000, false, 1⟩

/-- Provider `B` of the example registry. -/
def cfgB : LLMProviderConfig :=
  ⟨"B", "https://b.example/v1", "key-b", ["b-model"], 1000, false, 2⟩

/-- Provider `C` of the example registry. -/
def cfgC : LLMProviderConfig :=
  ⟨"C", "https://c.example/v1", "key-c", ["c-model"], 1000, false, 3⟩

/-- The example registry `A, B, C`. -/
def regABC : ProviderRegistry := [("A", cfgA), ("B", cfgB), ("C", cfgC)]

/-- Closed instance of C10: the body built for OpenAI from a concrete
prompt carries the fixed constants. -/
def bodyW : RequestBody :=
  { model := "gpt-4-turbo"
    messages := [⟨"system", SYSTEM_INSTRUCTION⟩, ⟨"user", "salut"⟩]
    max_tokens := 1000
    temperature := sevenTenths }

/-- Unknown provider used by the C8 witness. -/
def cfgUnknown : LLMProviderConfig :=
  ⟨"Mistral", "https://m.example/v1", "km", ["m-model"], 1000, false, 9⟩

/-- The optional-chaining tail `choices[0]?.message?.content` over the
elements of a present `choices` array. -/
def messageContentAt (xs : List Json) : Option Json :=
  jsOptMember (jsOptMember xs[0]? "message") "content"

/-- The optional-chaining tail `content[0]?.text` over the elements of a
present `content` array. -/
def textAt (xs : List Json) : Option Json :=
  jsOptMember xs[0]? "text"

/-- Environment for the C9 witness: only OpenAI is configured and the
transport answers with content `"a\n\nb\nc"`. -/
def envC9 : Env :=
  { providers := LLM_PROVIDERS "k" "" ""
    post := fun _ _ => .ok (Json.obj [("choices", Json.arr
        [Json.obj [("message", Json.obj [("content", Json.str "a\n\nb\nc")])]])])
    postStream := fun _ _ => .error "unused"
    parseJson := fun _ => .error "unused" }

/-- The response the C9 witness environment produces. -/
def respC9 : LLMResponse :=
  { text := "a\n\nb\nc"
    provider := "OpenAI"
    model := "gpt-4-turbo"
    tokenUsage := some ⟨Json.num 0, Json.num 0, Json.num 0⟩ }

/-- Environment for the C3 witness: only Claude is configured and every
buffered transport call is rejected. -/
def envC3 : Env :=
  { providers := LLM_PROVIDERS "" "ck" ""
    post := fun _ _ => .error "boom"
    postStream := fun _ _ => .error "boom"
    parseJson := fun _ => .error "unused" }

/-- Explicit-provider request of the C3 witness. -/
def reqC3 : LLMRequest := { prompt := "p", provider := some "claude" }

/-- Environment of the C1 counterexample: only DeepSeek (which does not
support streaming) is configured, and the buffered transport succeeds. -/
def envC1 : Env :=
  { providers := LLM_PROVIDERS "" "" "dk"
    post := fun _ _ => .ok (Json.obj [("choices", Json.arr
        [Json.obj [("message", Json.obj [("content", Json.str "salut")])]])])
    postStream := fun _ _ => .ok []
    parseJson := fun _ => .error "unused" }

/-- Streaming request of the C1 counterexample (callback supplied). -/
def reqC1 : LLMRequest :=
  { prompt := "p", provider := some "deepseek", streaming := true, onStreamingUpdate := true }

/-- Environment of the C1 witness: OpenAI and Claude both support
streaming; the streamed transport yields no chunks. -/
def envC1w : Env :=
  { providers := LLM_PROVIDERS "ok" "ck" ""
    post := fun _ _ => .error "unused"
    postStream := fun _ _ => .ok []
    parseJson := fun _ => .error "unused" }

/-- Streaming request of the C1 witness. -/
def reqC1w : LLMRequest := { prompt := "p", streaming := true, onStreamingUpdate := true }

/-- The JSON value the C4 environment's `JSON.parse` produces for the
payload `"X"`. -/
def msgJsonC4 : Json :=
  Json.obj [("choices", Json.arr [Json.obj [("message", Json.obj [("content", Json.str "hi")])]])]

/-- Environment of the C4 evaluation: OpenAI (streaming-capable) is
configured; the streamed transport delivers one chunk whose data frame
parses to a body with content `"hi"`. -/
def envC4 : Env :=
  { providers := LLM_PROVIDERS "ok" "" ""
    post := fun _ _ => .error "unused"
    postStream := fun _ _ => .ok ["data: X"]
    parseJson := fun s => if s = "X" then .ok msgJsonC4 else .error "SyntaxError" }

/-- Streaming request of the C4 evaluation. -/
def reqC4 : LLMRequest := { prompt := "p", streaming := true, onStreamingUpdate := true }

/-- Response body of the C2 counterexample's succeeding provider. -/
def okBodyC2 : Json :=
  Json.obj [("choices", Json.arr [Json.obj [("message", Json.obj [("content", Json.str "salut")])]])]

/-- Environment of the C2 counterexample: OpenAI and Claude configured;
Claude's transport always fails, OpenAI's succeeds. -/
def envC2 : Env :=
  { providers := LLM_PROVIDERS "ok" "ck" ""
    post := fun p _ => if p.name = "Claude" then .error "fail" else .ok okBodyC2
    postStream := fun _ _ => .error "unused"
    parseJson := fun _ => .error "unused" }

/-- Non-streaming explicit-provider request of the C2 counterexample. -/
def reqC2 : LLMRequest := { prompt := "p", provider := some "claude" }

/-- Environment of the C2 witness: only OpenAI configured, transport
succeeds. -/
def envC2w : Env :=
  { providers := LLM_PROVIDERS "ok" "" ""
    post := fun _ _ => .ok okBodyC2
    postStream := fun _ _ => .error "unused"
    parseJson := fun _ => .error "unused" }

/-- Non-streaming request of the C2 witness. -/
def reqC2w : LLMRequest := { prompt := "p" }

/-- Response of the C2 witness. -/
def respC2w : LLMResponse :=
  { text := "salut"
    provider := "OpenAI"
    model := "gpt-4-turbo"
    tokenUsage := some ⟨Json.num 0, Json.num 0, Json.num 0⟩ }

theorem sevenTenths_eq : sevenTenths = 7 / 10 := by
  rw [show sevenTenths = Rat.mk' 7 10 (by decide) (by decide) from rfl]
  rw [Rat.mk'_eq_divInt, Rat.divInt_eq_div]
  norm_num

theorem sendRequest_eq_noRetry (env : Env) (now : Int) (cache : ResponseCache)
    (request : LLMRequest) (h : jsTruthyOptStr request.provider = false) :
    sendRequest env now cache request = noRetryMap (sendRequestCore env now cache request) := by
  rw [sendRequest]
  cases hres : (sendRequestCore env now cache request).result with
  | ok r => simp [noRetryMap, hres]
  | error e =>
    cases e with
    | noProvider => simp [noRetryMap, hres]
    | dispatchFailed msg => simp [noRetryMap, hres, h]

/-- Unrolling of the bounded recursion: a `sendRequest` call is exactly
the flat two-attempt computation. -/
theorem sendRequest_eq_flat (env : Env) (now : Int) (cache : ResponseCache)
    (request : LLMRequest) :
    sendRequest env now cache request = sendRequestFlat env now cache request := by
  rw [sendRequest, sendRequestFlat]
  cases hres : (sendRequestCore env now cache request).result with
  | ok r => simp [hres]
  | error e =>
    cases e with
    | noProvider => simp [hres]
    | dispatchFailed msg =>
      by_cases ht : jsTruthyOptStr request.provider = true
      · have hcleared : jsTruthyOptStr (({ request with provider := none } : LLMRequest)).provider = false := by
          simp [jsTruthyOptStr]
        simp [hres, ht, secondAttempt,
          sendRequest_eq_noRetry env now cache { request with provider := none } hcleared]
      · simp [hres, ht]

theorem cacheLookup_cachePut (c : ResponseCache) (k : CacheKey) (item : CacheItem) :
    cacheLookup (cachePut c k item) k = some item := by
  simp [cachePut, cacheLookup]

theorem recordLookup_mem {reg : ProviderRegistry} {k : String} {p : LLMProviderConfig}
    (h : recordLookup reg k = some p) : p ∈ objectValues reg := by
  induction reg with
  | nil => simp [recordLookup] at h
  | cons kv rest ih =>
    obtain ⟨k0, v0⟩ := kv
    rw [recordLookup] at h
    by_cases hk : k0 = k
    · rw [if_pos hk] at h
      cases h
      simp [objectValues]
    · rw [if_neg hk] at h
      simp [objectValues] at ih ⊢
      exact Or.inr (ih h)

theorem sortByPriority_sorted (l : List LLMProviderConfig) :
    List.Sorted prioLE (sortByPriority l) :=
  List.sorted_insertionSort prioLE l

theorem sortByPriority_perm (l : List LLMProviderConfig) :
    List.Perm (sortByPriority l) l :=
  List.perm_insertionSort prioLE l

theorem mem_sortByPriority {l : List LLMProviderConfig} {p : LLMProviderConfig} :
    p ∈ sortByPriority l ↔ p ∈ l :=
  (sortByPriority_perm l).mem_iff

theorem filter_orderedInsert_priority (n : Int) (x : LLMProviderConfig)
    (l : List LLMProviderConfig) :
    (List.orderedInsert prioLE x l).filter (fun p => p.priority == n)
      = ((x :: l).filter (fun p => p.priority == n)) := by
  induction l with
  | nil => rfl
  | cons y ys ih =>
    by_cases hxy : prioLE x y
    · rw [List.orderedInsert, if_pos hxy]
    · rw [List.orderedInsert, if_neg hxy]
      by_cases hqy : y.priority = n <;> by_cases hqx : x.priority = n
      · exact absurd (by simp [prioLE, hqy, hqx] : prioLE x y) hxy
      · simp only [List.filter_cons, hqy, hqx, ih]
        simp [hqy, hqx]
      · simp only [List.filter_cons, hqy, hqx, ih]
        simp [hqy, hqx]
      · simp only [List.filter_cons, hqy, hqx, ih]
        simp [hqy, hqx]

theorem filter_sortByPriority_priority (n : Int) (l : List LLMProviderConfig) :
    (sortByPriority l).filter (fun p => p.priority == n)
      = l.filter (fun p => p.priority == n) := by
  induction l with
  | nil => rfl
  | cons x xs ih =>
    rw [sortByPriority, List.insertionSort]
    rw [show List.insertionSort prioLE xs = sortByPriority xs from rfl]
    rw [filter_orderedInsert_priority]
    simp only [List.filter_cons, ih]

theorem availableByPriority_head_min {reg : ProviderRegistry} {q : LLMProviderConfig}
    (hq : (availableByPriority reg).head? = some q) :
    q ∈ objectValues reg ∧ q.apiKey ≠ "" ∧
      ∀ p ∈ objectValues reg, p.apiKey ≠ "" → q.priority ≤ p.priority := by
  have hmemq : q ∈ availableByPriority reg := by
    cases hl : availableByPriority reg with
    | nil => rw [hl] at hq; simp at hq
    | cons a rest => rw [hl] at hq; simp at hq; simp [hl, hq]
  have hmemf : q ∈ (objectValues reg).filter (fun provider => provider.apiKey != "") := by
    rw [availableByPriority] at hmemq
    exact mem_sortByPriority.mp hmemq
  have hqv : q ∈ objectValues reg := (List.mem_filter.mp hmemf).1
  have hqk : q.apiKey ≠ "" := by
    have := (List.mem_filter.mp hmemf).2
    simpa using this
  refine ⟨hqv, hqk, ?_⟩
  intro p hp hpk
  have hpf : p ∈ (objectValues reg).filter (fun provider => provider.apiKey != "") := by
    rw [List.mem_filter]
    exact ⟨hp, by simpa using hpk⟩
  have hps : p ∈ availableByPriority reg := by
    rw [availableByPriority]
    exact mem_sortByPriority.mpr hpf
  have hsorted : List.Sorted prioLE (availableByPriority reg) :=
    sortByPriority_sorted _
  cases hl : availableByPriority reg with
  | nil => rw [hl] at hq; simp at hq
  | cons a rest =>
    rw [hl] at hq
    simp at hq
    subst hq
    rw [hl] at hps hsorted
    rcases List.mem_cons.mp hps with hpq | hpr
    · subst hpq; exact le_refl _
    · exact (List.sorted_cons.mp hsorted).1 p hpr

theorem getBestProvider_mem {reg : ProviderRegistry} {r : Option String}
    {q : LLMProviderConfig} (h : getBestProvider reg r = some q) :
    q ∈ objectValues reg ∧ q.apiKey ≠ "" := by
  unfold getBestProvider at h
  rcases r with _ | k
  · simp at h
    have := availableByPriority_head_min h
    exact ⟨this.1, this.2.1⟩
  · simp only at h
    by_cases hk : k = ""
    · rw [if_pos hk] at h
      simp at h
      have := availableByPriority_head_min h
      exact ⟨this.1, this.2.1⟩
    · rw [if_neg hk] at h
      cases hl : recordLookup reg k with
      | none =>
        rw [hl] at h
        simp at h
        have := availableByPriority_head_min h
        exact ⟨this.1, this.2.1⟩
      | some p =>
        rw [hl] at h
        dsimp only at h
        by_cases hpk : p.apiKey = ""
        · rw [if_pos hpk] at h
          simp at h
          have := availableByPriority_head_min h
          exact ⟨this.1, this.2.1⟩
        · rw [if_neg hpk] at h
          simp at h
          subst h
          exact ⟨recordLookup_mem hl, hpk⟩

theorem formatPromptForProvider_constants (provider : LLMProviderConfig)
    (prompt model : String) (body : RequestBody)
    (h : formatPromptForProvider provider prompt model = .ok body) :
    body.max_tokens = 1000 ∧ body.temperature = sevenTenths := by
  unfold formatPromptForProvider at h
  split at h
  · injection h with h2
    subst h2
    exact ⟨rfl, rfl⟩
  · injection h with h2
    subst h2
    exact ⟨rfl, rfl⟩
  · injection h with h2
    subst h2
    exact ⟨rfl, rfl⟩
  · exact Except.noConfusion h

theorem tryDispatch_ok_sync {env : Env} {now : Int} {request : LLMRequest}
    {p : LLMProviderConfig} {m : String} {r : LLMResponse}
    (hs : request.streaming = false)
    (h : (tryDispatch env now request p m).result = .ok r) :
    (tryDispatch env now request p m).store = some (createCacheKey request, ⟨r, now⟩) ∧
      (tryDispatch env now request p m).dispatches ≠ [] := by
  rcases hf : formatPromptForProvider p request.prompt m with e | body
  · simp [tryDispatch, hf] at h
  · rcases hp : env.post p body with e | responseData
    · simp [tryDispatch, hf, hs, hp] at h
    · rcases he : extractResponseFromProvider p responseData with e | text
      · simp [tryDispatch, hf, hs, hp, he] at h
      · simp [tryDispatch, hf, hs, hp, he] at h ⊢
        exact h

theorem tryDispatch_body_constants {env : Env} {now : Int} {request : LLMRequest}
    {p : LLMProviderConfig} {m : String} {ev : DispatchEvent}
    (h : ev ∈ (tryDispatch env now request p m).dispatches) :
    ev.body.max_tokens = 1000 ∧ ev.body.temperature = sevenTenths := by
  rcases hf : formatPromptForProvider p request.prompt m with e | body
  · simp [tryDispatch, hf] at h
  · have hconst := formatPromptForProvider_constants p request.prompt m body hf
    by_cases hc : (request.streaming && p.streamingSupport && request.onStreamingUpdate) = true
    · rcases hps : env.postStream p { body with stream := true } with e | chunks
      · simp [tryDispatch, hf, hc, hps] at h
        rw [h]
        exact hconst
      · simp [tryDispatch, hf, hc, hps] at h
        rw [h]
        exact hconst
    · rcases hp : env.post p body with e | responseData
      · simp [tryDispatch, hf, hc, hp] at h
        rw [h]
        exact hconst
      · rcases he : extractResponseFromProvider p responseData with e | text
        · simp [tryDispatch, hf, hc, hp, he] at h
          rw [h]
          exact hconst
        · simp [tryDispatch, hf, hc, hp, he] at h
          rw [h]
          exact hconst

theorem sendRequestCore_hit (env : Env) (now : Int) (cache : ResponseCache)
    (request : LLMRequest) (item : CacheItem)
    (hs : request.streaming = false)
    (hl : cacheLookup cache (createCacheKey request) = some item)
    (hfresh : now - item.timestamp < CACHE_DURATION) :
    sendRequestCore env now cache request = ⟨.ok item.response, cache, [], []⟩ := by
  simp [sendRequestCore, hs, hl, hfresh]

theorem sendRequestCore_stale (env : Env) (now : Int) (cache : ResponseCache)
    (request : LLMRequest) (item : CacheItem)
    (hs : request.streaming = false)
    (hl : cacheLookup cache (createCacheKey request) = some item)
    (hstale : ¬ now - item.timestamp < CACHE_DURATION) :
    sendRequestCore env now cache request = selectAndDispatch env now cache request := by
  simp [sendRequestCore, hs, hl, hstale]

theorem sendRequestCore_streaming (env : Env) (now : Int) (cache : ResponseCache)
    (request : LLMRequest) (hs : request.streaming = true) :
    sendRequestCore env now cache request = selectAndDispatch env now cache request := by
  simp [sendRequestCore, hs]

theorem tryDispatch_streaming_no_store (env : Env) (now : Int) (request : LLMRequest)
    (p : LLMProviderConfig) (m : String)
    (hc : (request.streaming && p.streamingSupport && request.onStreamingUpdate) = true) :
    (tryDispatch env now request p m).store = none := by
  rcases hf : formatPromptForProvider p request.prompt m with e | body
  · simp [tryDispatch, hf]
  · rcases hps : env.postStream p { body with stream := true } with e | chunks <;>
      simp [tryDispatch, hf, hc, hps]

theorem selectAndDispatch_cache_indep (env : Env) (now : Int) (c c' : ResponseCache)
    (request : LLMRequest) :
    (selectAndDispatch env now c request).result = (selectAndDispatch env now c' request).result ∧
    (selectAndDispatch env now c request).dispatches
      = (selectAndDispatch env now c' request).dispatches ∧
    (selectAndDispatch env now c request).streamUpdates
      = (selectAndDispatch env now c' request).streamUpdates := by
  unfold selectAndDispatch
  cases hg : getBestProvider env.providers request.provider with
  | none => simp
  | some provider =>
    cases ha : (tryDispatch env now request provider
        (jsStrOr request.model (jsStrOr provider.models.head? ""))).result <;>
      simp [ha]

theorem selectAndDispatch_streaming_cache (env : Env) (now : Int) (cache : ResponseCache)
    (request : LLMRequest)
    (hstream : request.streaming = true) (hcb : request.onStreamingUpdate = true)
    (hall : ∀ p ∈ objectValues env.providers, p.apiKey ≠ "" → p.streamingSupport = true) :
    (selectAndDispatch env now cache request).cache = cache := by
  unfold selectAndDispatch
  cases hg : getBestProvider env.providers request.provider with
  | none => simp
  | some provider =>
    have hps : provider.streamingSupport = true :=
      hall provider (getBestProvider_mem hg).1 (getBestProvider_mem hg).2
    have hc : (request.streaming && provider.streamingSupport && request.onStreamingUpdate)
        = true := by
      simp [hstream, hps, hcb]
    have hns := tryDispatch_streaming_no_store env now request provider
      (jsStrOr request.model (jsStrOr provider.models.head? "")) hc
    cases ha : (tryDispatch env now request provider
        (jsStrOr request.model (jsStrOr provider.models.head? ""))).result <;>
      simp [ha, hns]

theorem getBestProvider_fallback (reg : ProviderRegistry) (r : Option String)
    (h : r = none ∨ r = some "" ∨ (∃ k, r = some k ∧ recordLookup reg k = none) ∨
      (∃ k p, r = some k ∧ recordLookup reg k = some p ∧ p.apiKey = "")) :
    getBestProvider reg r = (availableByPriority reg).head? := by
  rcases h with h | h | ⟨k, hk, hl⟩ | ⟨k, p, hk, hl, hpk⟩
  · subst h; rfl
  · subst h; rfl
  · subst hk; simp [getBestProvider, hl]
  · subst hk
    by_cases hke : k = ""
    · simp [getBestProvider, hke]
    · simp [getBestProvider, hke, hl, hpk]

/-- C6: `getBestProvider(name)` returns a known provider with a
non-empty credential even when a higher-priority provider is available;
when the name is absent, unknown, empty, or names a credential-less
provider, it returns a minimal-priority provider among those with
non-empty credentials, or `none` when no provider has a credential; and
on the example registry `A(1, empty), B(2, set), C(3, set)` it resolves
`none ↦ B`, `"A" ↦ B`, `"C" ↦ C`. -/
theorem claim_C6_getBestProvider_resolution :
    (∀ reg k p, k ≠ "" → recordLookup reg k = some p → p.apiKey ≠ "" →
        getBestProvider reg (some k) = some p) ∧
    (∀ reg r, (r = none ∨ r = some "" ∨ (∃ k, r = some k ∧ recordLookup reg k = none) ∨
          (∃ k p, r = some k ∧ recordLookup reg k = some p ∧ p.apiKey = "")) →
        ((∀ p ∈ objectValues reg, p.apiKey = "") → getBestProvider reg r = none) ∧
        (∀ q0 ∈ objectValues reg, q0.apiKey ≠ "" →
          ∃ q, getBestProvider reg r = some q ∧ q.apiKey ≠ "" ∧ q ∈ objectValues reg ∧
            ∀ p ∈ objectValues reg, p.apiKey ≠ "" → q.priority ≤ p.priority)) ∧
    (getBestProvider regABC none = some cfgB ∧
      getBestProvider regABC (some "A") = some cfgB ∧
      getBestProvider regABC (some "C") = some cfgC) := by
  refine ⟨?_, ?_, by decide, by decide, by decide⟩
  · intro reg k p hk hl hpk
    simp [getBestProvider, hk, hl, hpk]
  · intro reg r hfall
    rw [getBestProvider_fallback reg r hfall]
    constructor
    · intro hempty
      have hfil : (objectValues reg).filter (fun provider => provider.apiKey != "") = [] := by
        rw [List.filter_eq_nil_iff]
        intro a ha
        simp [hempty a ha]
      rw [availableByPriority, hfil]
      rfl
    · intro q0 hq0 hq0k
      cases hl : (availableByPriority reg).head? with
      | none =>
        exfalso
        have hnil : availableByPriority reg = [] := by
          cases he : availableByPriority reg with
          | nil => rfl
          | cons a rest => rw [he] at hl; simp at hl
        have : q0 ∈ availableByPriority reg := by
          rw [availableByPriority]
          refine mem_sortByPriority.mpr ?_
          rw [List.mem_filter]
          exact ⟨hq0, by simpa using hq0k⟩
        rw [hnil] at this
        simp at this
      | some q =>
        have hmin := availableByPriority_head_min hl
        exact ⟨q, rfl, hmin.2.1, hmin.1, hmin.2.2⟩

/-- C7: `getAvailableProviders()` returns exactly the providers whose
credential is non-empty, sorted ascending by priority, with equal
priorities kept in declaration order (stability). -/
theorem claim_C7_getAvailableProviders_sorted_stable :
    ∀ reg : ProviderRegistry,
      List.Sorted prioLE (getAvailableProviders reg) ∧
      (∀ n : Int, (getAvailableProviders reg).filter (fun p => p.priority == n)
          = ((objectValues reg).filter (fun p => p.apiKey != "")).filter
              (fun p => p.priority == n)) ∧
      (∀ p, p ∈ getAvailableProviders reg ↔ p ∈ objectValues reg ∧ p.apiKey ≠ "") := by
  intro reg
  refine ⟨sortByPriority_sorted _, ?_, ?_⟩
  · intro n
    exact filter_sortByPriority_priority n _
  · intro p
    rw [getAvailableProviders]
    rw [show ((objectValues reg).filter (fun provider => provider.apiKey != "")
        |> sortByPriority)
      = sortByPriority ((objectValues reg).filter (fun provider => provider.apiKey != ""))
      from rfl]
    rw [mem_sortByPriority, List.mem_filter]
    simp

/-- Closed instances of C6's two implications: the explicit available
provider `deepseek` is honored despite its low priority, and on the
example registry an unavailable explicit `A` falls back to a
minimal-priority available provider. -/
theorem claim_C6_witness :
    getBestProvider (LLM_PROVIDERS "ok" "ck" "dk") (some "deepseek")
        = some (deepseekConfig "dk") ∧
      (∃ q, getBestProvider regABC (some "A") = some q ∧ q.apiKey ≠ "" ∧
        q ∈ objectValues regABC ∧
        ∀ p ∈ objectValues regABC, p.apiKey ≠ "" → q.priority ≤ p.priority) :=
  ⟨claim_C6_getBestProvider_resolution.1 (LLM_PROVIDERS "ok" "ck" "dk") "deepseek"
      (deepseekConfig "dk") (by decide) (by decide) (by decide),
    (claim_C6_getBestProvider_resolution.2.1 regABC (some "A")
        (Or.inr (Or.inr (Or.inr ⟨"A", cfgA, rfl, by decide, by decide⟩)))).2
      cfgB (by decide) (by decide)⟩

theorem sendRequestCore_miss (env : Env) (now : Int) (cache : ResponseCache)
    (request : LLMRequest)
    (hl : cacheLookup cache (createCacheKey request) = none) :
    sendRequestCore env now cache request = selectAndDispatch env now cache request := by
  cases hs : request.streaming <;> simp [sendRequestCore, hs, hl]

theorem selectAndDispatch_body_constants (env : Env) (now : Int) (cache : ResponseCache)
    (request : LLMRequest) (ev : DispatchEvent)
    (h : ev ∈ (selectAndDispatch env now cache request).dispatches) :
    ev.body.max_tokens = 1000 ∧ ev.body.temperature = sevenTenths := by
  unfold selectAndDispatch at h
  cases hg : getBestProvider env.providers request.provider with
  | none => rw [hg] at h; simp at h
  | some provider =>
    rw [hg] at h
    dsimp only at h
    cases ha : (tryDispatch env now request provider
        (jsStrOr request.model (jsStrOr provider.models.head? ""))).result with
    | ok resp =>
      rw [ha] at h
      dsimp only at h
      exact tryDispatch_body_constants h
    | error e =>
      rw [ha] at h
      dsimp only at h
      exact tryDispatch_body_constants h

theorem sendRequestCore_body_constants (env : Env) (now : Int) (cache : ResponseCache)
    (request : LLMRequest) (ev : DispatchEvent)
    (h : ev ∈ (sendRequestCore env now cache request).dispatches) :
    ev.body.max_tokens = 1000 ∧ ev.body.temperature = sevenTenths := by
  by_cases hstream : request.streaming = true
  · rw [sendRequestCore_streaming env now cache request hstream] at h
    exact selectAndDispatch_body_constants env now cache request ev h
  · have hs : request.streaming = false := by simpa using hstream
    cases hl : cacheLookup cache (createCacheKey request) with
    | none =>
      rw [sendRequestCore_miss env now cache request hl] at h
      exact selectAndDispatch_body_constants env now cache request ev h
    | some item =>
      by_cases hfresh : now - item.timestamp < CACHE_DURATION
      · rw [sendRequestCore_hit env now cache request item hs hl hfresh] at h
        simp at h
      · rw [sendRequestCore_stale env now cache request item hs hl hfresh] at h
        exact selectAndDispatch_body_constants env now cache request ev h

theorem noRetryMap_dispatches (core : CoreOutcome) :
    (noRetryMap core).dispatches = core.dispatches := by
  unfold noRetryMap
  cases hres : core.result with
  | ok r => rfl
  | error e => cases e <;> rfl

theorem sendRequestFlat_dispatches_split (env : Env) (now : Int) (cache : ResponseCache)
    (request : LLMRequest) (ev : DispatchEvent)
    (h : ev ∈ (sendRequestFlat env now cache request).dispatches) :
    ev ∈ (sendRequestCore env now cache request).dispatches ∨
      ev ∈ (sendRequestCore env now cache { request with provider := none }).dispatches := by
  unfold sendRequestFlat at h
  dsimp only at h
  cases hres : (sendRequestCore env now cache request).result with
  | ok r => rw [hres] at h; exact Or.inl h
  | error e =>
    cases e with
    | noProvider => rw [hres] at h; exact Or.inl h
    | dispatchFailed msg =>
      rw [hres] at h
      dsimp only at h
      by_cases ht : jsTruthyOptStr request.provider = true
      · rw [if_pos ht] at h
        dsimp only [secondAttempt] at h
        rw [List.mem_append] at h
        rcases h with h | h
        · exact Or.inl h
        · rw [noRetryMap_dispatches] at h
          exact Or.inr h
      · rw [if_neg ht] at h
        exact Or.inl h

/-- C10: every provider-native body built by `formatPromptForProvider`
has `max_tokens = 1000` and `temperature = 0.7`, and so does every body
a `sendRequest` call actually dispatches, whatever `maxTokens` and
`temperature` the request carries (those fields only enter the cache
fingerprint). -/
theorem claim_C10_fixed_body_constants :
    (∀ provider prompt model body,
        formatPromptForProvider provider prompt model = .ok body →
        body.max_tokens = 1000 ∧ body.temperature = sevenTenths) ∧
    (∀ env now cache request ev,
        ev ∈ (sendRequest env now cache request).dispatches →
        ev.body.max_tokens = 1000 ∧ ev.body.temperature = sevenTenths) := by
  constructor
  · exact formatPromptForProvider_constants
  · intro env now cache request ev hev
    rw [sendRequest_eq_flat] at hev
    rcases sendRequestFlat_dispatches_split env now cache request ev hev with h | h
    · exact sendRequestCore_body_constants env now cache request ev h
    · exact sendRequestCore_body_constants env now cache { request with provider := none } ev h

/-- Witness for C10 at a concrete provider, prompt and model. -/
theorem claim_C10_witness :
    bodyW.max_tokens = 1000 ∧ bodyW.temperature = sevenTenths :=
  claim_C10_fixed_body_constants.1 (openaiConfig "k") "salut" "gpt-4-turbo" bodyW rfl

/-- C8: `extractTokenUsage` never propagates an exception — any error of
its body is caught and degraded to `undefined` — and an unknown provider
name likewise yields `undefined`. -/
theorem claim_C8_extractTokenUsage_total :
    (∀ provider responseData e,
        extractTokenUsageBody provider responseData = .error e →
        extractTokenUsage provider responseData = none) ∧
    (∀ (provider : LLMProviderConfig) responseData,
        provider.name ∉ (["OpenAI", "Claude", "DeepSeek"] : List String) →
        extractTokenUsage provider responseData = none) := by
  constructor
  · intro provider responseData e h
    simp [extractTokenUsage, h]
  · intro provider responseData hname
    have hbody : extractTokenUsageBody provider responseData = .ok none := by
      unfold extractTokenUsageBody
      split
      · rename_i hn; exact absurd (by simp [hn]) hname
      · rename_i hn; exact absurd (by simp [hn]) hname
      · rename_i hn; exact absurd (by simp [hn]) hname
      · rfl
    simp [extractTokenUsage, hbody]

/-- Witness for C8: a `null` body makes the OpenAI branch throw inside
the guarded body (degraded to `none`), and an unknown provider yields
`none` outright. -/
theorem claim_C8_witness :
    extractTokenUsage (openaiConfig "k") Json.null = none ∧
      extractTokenUsage cfgUnknown (Json.obj []) = none :=
  ⟨claim_C8_extractTokenUsage_total.1 (openaiConfig "k") Json.null "TypeError" rfl,
    claim_C8_extractTokenUsage_total.2 cfgUnknown (Json.obj []) (by decide)⟩

/-- C5 counterexample: on the OpenAI shape with response body `{}` (the
top-level `choices` field absent — a well-formed body with the expected
path missing at the outermost level) the extraction throws a
`TypeError` instead of returning the empty string. -/
theorem claim_C5_counterexample :
    extractResponseFromProvider (openaiConfig "k") (Json.obj [])
      = Except.error "TypeError" := rfl

/-- C5 amended: when the top-level `choices` (OpenAI/DeepSeek) or
`content` (Claude) field is present as an array, extraction never
throws and returns the chained value defaulted to the empty string — in
particular the empty string whenever the rest of the path is absent at
any level; if the top-level field itself is absent or nullish, a
`TypeError` is thrown instead (see the counterexample). -/
theorem claim_C5_amended :
    (∀ (p : LLMProviderConfig) fields xs,
        (p.name = "OpenAI" ∨ p.name = "DeepSeek") →
        lookupField fields "choices" = some (Json.arr xs) →
        extractResponseFromProvider p (Json.obj fields)
            = .ok (jsOrEmptyString (messageContentAt xs)) ∧
          (messageContentAt xs = none →
            extractResponseFromProvider p (Json.obj fields) = .ok "")) ∧
    (∀ (p : LLMProviderConfig) fields xs,
        p.name = "Claude" →
        lookupField fields "content" = some (Json.arr xs) →
        extractResponseFromProvider p (Json.obj fields)
            = .ok (jsOrEmptyString (textAt xs)) ∧
          (textAt xs = none →
            extractResponseFromProvider p (Json.obj fields) = .ok "")) := by
  constructor
  · rintro p fields xs (hn | hn) hl <;>
    · refine ⟨?_, ?_⟩
      · simp [extractResponseFromProvider, hn, hl, jsMember, jsIndexAccess, messageContentAt,
          Bind.bind, Except.bind]
      · intro habs
        simp [extractResponseFromProvider, hn, hl, jsMember, jsIndexAccess, messageContentAt,
          Bind.bind, Except.bind] at habs ⊢
        simp [habs, jsOrEmptyString]
  · rintro p fields xs hn hl
    refine ⟨?_, ?_⟩
    · simp [extractResponseFromProvider, hn, hl, jsMember, jsIndexAccess, textAt,
        Bind.bind, Except.bind]
    · intro habs
      simp [extractResponseFromProvider, hn, hl, jsMember, jsIndexAccess, textAt,
        Bind.bind, Except.bind] at habs ⊢
      simp [habs, jsOrEmptyString]

/-- Witness for C5's amended statement: an empty `choices` array yields
the empty string without throwing. -/
theorem claim_C5_witness :
    extractResponseFromProvider (openaiConfig "k") (Json.obj [("choices", Json.arr [])])
      = .ok "" :=
  (claim_C5_amended.1 (openaiConfig "k") [("choices", Json.arr [])] [] (Or.inl rfl) rfl).2 rfl

/-- C9: `suggestInsights` splits the router's text on newlines, trims
each line and drops the empty ones, preserving order; on text
`"a\n\nb\nc"` it yields exactly `["a", "b", "c"]`. -/
theorem claim_C9_suggestInsights_lines :
    ∀ env now cache dataContextStr options resp,
      (sendRequest env now cache
          (mergeRequest (insightsPrompt dataContextStr) options)).result = .ok resp →
      (suggestInsights env now cache dataContextStr options).1
          = .ok (((jsSplitNewline resp.text).map jsTrim).filter
              (fun line => line.length > 0)) ∧
        (resp.text = "a\n\nb\nc" →
          (suggestInsights env now cache dataContextStr options).1 = .ok ["a", "b", "c"]) := by
  intro env now cache d options resp h
  constructor
  · simp [suggestInsights, h, parseInsights]
  · intro ht
    simp [suggestInsights, h, parseInsights, ht]
    rfl

/-- Witness for C9: the full pipeline on the concrete environment yields
`["a", "b", "c"]`. -/
theorem claim_C9_witness :
    (suggestInsights envC9 0 [] "date" {}).1 = .ok ["a", "b", "c"] :=
  (claim_C9_suggestInsights_lines envC9 0 [] "date" {} respC9
      (by rw [sendRequest_eq_flat]; rfl)).2 rfl

/-- C3: when the dispatch of a request that names a truthy provider
fails, `sendRequest` performs exactly the one `secondAttempt` — a core
attempt on the request with `provider` cleared, whose own dispatch
failure is terminal and wrapped — and when a request with a falsy
provider fails, no retry occurs and the failure surfaces as the
communication error wrapping the underlying message. The recursion
therefore unrolls to at most two core attempts. -/
theorem claim_C3_single_bounded_retry :
    ∀ env now cache request e,
      (sendRequestCore env now cache request).result = .error (.dispatchFailed e) →
      (jsTruthyOptStr request.provider = true →
        sendRequest env now cache request =
          ⟨(secondAttempt env now cache request).result,
            (secondAttempt env now cache request).cache,
            (sendRequestCore env now cache request).dispatches
              ++ (secondAttempt env now cache request).dispatches,
            (sendRequestCore env now cache request).streamUpdates
              ++ (secondAttempt env now cache request).streamUpdates⟩) ∧
      (jsTruthyOptStr request.provider = false →
        sendRequest env now cache request =
          ⟨.error (.comm (commErrMsg e)),
            (sendRequestCore env now cache request).cache,
            (sendRequestCore env now cache request).dispatches,
            (sendRequestCore env now cache request).streamUpdates⟩) := by
  intro env now cache request e hres
  constructor
  · intro ht
    rw [sendRequest_eq_flat]
    unfold sendRequestFlat
    dsimp only
    rw [hres]
    simp [ht]
  · intro hf
    rw [sendRequest_eq_flat]
    unfold sendRequestFlat
    dsimp only
    rw [hres]
    simp [hf]

/-- Witness for C3: the failing explicit-provider call is exactly the
one retried composition. -/
theorem claim_C3_witness :
    sendRequest envC3 0 [] reqC3 =
      ⟨(secondAttempt envC3 0 [] reqC3).result,
        (secondAttempt envC3 0 [] reqC3).cache,
        (sendRequestCore envC3 0 [] reqC3).dispatches
          ++ (secondAttempt envC3 0 [] reqC3).dispatches,
        (sendRequestCore envC3 0 [] reqC3).streamUpdates
          ++ (secondAttempt envC3 0 [] reqC3).streamUpdates⟩ :=
  (claim_C3_single_bounded_retry envC3 0 [] reqC3 "boom" rfl).1 rfl

theorem noRetryMap_cache (core : CoreOutcome) : (noRetryMap core).cache = core.cache := by
  unfold noRetryMap
  cases hres : core.result with
  | ok r => rfl
  | error e => cases e <;> rfl

theorem noRetryMap_congr (a b : CoreOutcome) (hr : a.result = b.result)
    (hd : a.dispatches = b.dispatches) (hu : a.streamUpdates = b.streamUpdates) :
    (noRetryMap a).result = (noRetryMap b).result ∧
    (noRetryMap a).dispatches = (noRetryMap b).dispatches ∧
    (noRetryMap a).streamUpdates = (noRetryMap b).streamUpdates := by
  unfold noRetryMap
  rw [hr, hd, hu]
  cases hres : b.result with
  | ok r => exact ⟨rfl, rfl, rfl⟩
  | error e => cases e <;> exact ⟨rfl, rfl, rfl⟩

/-- C1 counterexample: a `streaming = true` request whose selected
provider lacks streaming support takes the synchronous fallback path
and does write its response into the cache, refuting "never writes the
resulting response into the cache afterwards … also when the selected
provider does not support streaming". -/
theorem claim_C1_counterexample :
    reqC1.streaming = true ∧ (sendRequest envC1 0 [] reqC1).cache.length = 1 := by
  constructor
  · rfl
  · rw [sendRequest_eq_flat]
    rfl

/-- C1 amended: a streaming request never consults the cache — its
result, dispatch trace and streaming updates are independent of the
cache contents, so two identical streaming requests dispatch alike —
and when the streaming branch is actually taken (every available
provider supports streaming and a callback is present) nothing is
written to the cache; but when the selected provider lacks streaming
support or no callback is supplied, the synchronous fallback path does
write the response (see the counterexample). -/
theorem claim_C1_amended :
    (∀ env now c c' request, request.streaming = true →
        (sendRequest env now c request).result = (sendRequest env now c' request).result ∧
        (sendRequest env now c request).dispatches
          = (sendRequest env now c' request).dispatches ∧
        (sendRequest env now c request).streamUpdates
          = (sendRequest env now c' request).streamUpdates) ∧
    (∀ env now c request, request.streaming = true → request.onStreamingUpdate = true →
        (∀ p ∈ objectValues env.providers, p.apiKey ≠ "" → p.streamingSupport = true) →
        (sendRequest env now c request).cache = c) := by
  constructor
  · intro env now c c' request hs
    rw [sendRequest_eq_flat, sendRequest_eq_flat]
    unfold sendRequestFlat
    dsimp only
    rw [sendRequestCore_streaming env now c request hs,
      sendRequestCore_streaming env now c' request hs]
    obtain ⟨h1, h2, h3⟩ := selectAndDispatch_cache_indep env now c c' request
    rw [← h1, ← h2, ← h3]
    cases hres : (selectAndDispatch env now c request).result with
    | ok r => exact ⟨rfl, rfl, rfl⟩
    | error e =>
      cases e with
      | noProvider => exact ⟨rfl, rfl, rfl⟩
      | dispatchFailed msg =>
        dsimp only
        by_cases ht : jsTruthyOptStr request.provider = true
        · rw [if_pos ht, if_pos ht]
          dsimp only
          have hs2 : ({ request with provider := none } : LLMRequest).streaming = true := hs
          unfold secondAttempt
          rw [sendRequestCore_streaming env now c { request with provider := none } hs2,
            sendRequestCore_streaming env now c' { request with provider := none } hs2]
          obtain ⟨g1, g2, g3⟩ :=
            selectAndDispatch_cache_indep env now c c' { request with provider := none }
          obtain ⟨n1, n2, n3⟩ := noRetryMap_congr _ _ g1 g2 g3
          exact ⟨n1, by rw [n2], by rw [n3]⟩
        · rw [if_neg ht, if_neg ht]
          exact ⟨rfl, rfl, rfl⟩
  · intro env now c request hs hcb hall
    rw [sendRequest_eq_flat]
    unfold sendRequestFlat
    dsimp only
    rw [sendRequestCore_streaming env now c request hs]
    have hc1 := selectAndDispatch_streaming_cache env now c request hs hcb hall
    cases hres : (selectAndDispatch env now c request).result with
    | ok r => exact hc1
    | error e =>
      cases e with
      | noProvider => exact hc1
      | dispatchFailed msg =>
        dsimp only
        by_cases ht : jsTruthyOptStr request.provider = true
        · rw [if_pos ht]
          dsimp only
          unfold secondAttempt
          rw [noRetryMap_cache]
          have hs2 : ({ request with provider := none } : LLMRequest).streaming = true := hs
          have hcb2 : ({ request with provider := none } : LLMRequest).onStreamingUpdate
              = true := hcb
          rw [sendRequestCore_streaming env now c { request with provider := none } hs2]
          exact selectAndDispatch_streaming_cache env now c { request with provider := none }
            hs2 hcb2 hall
        · rw [if_neg ht]
          exact hc1

/-- Witness for C1's amended statement at a concrete environment: the
result is cache-independent and the cache stays untouched. -/
theorem claim_C1_witness :
    (sendRequest envC1w 0 [] reqC1w).result
        = (sendRequest envC1w 0 [(createCacheKey reqC1w, ⟨⟨"x", "OpenAI", "m", none⟩, 0⟩)]
            reqC1w).result ∧
      (sendRequest envC1w 0 [] reqC1w).cache = [] :=
  ⟨(claim_C1_amended.1 envC1w 0 []
      [(createCacheKey reqC1w, ⟨⟨"x", "OpenAI", "m", none⟩, 0⟩)] reqC1w rfl).1,
    claim_C1_amended.2 envC1w 0 [] reqC1w rfl rfl (by decide)⟩

/-- C4 evaluated at the failing input: the handler accumulates `"hi"`
and delivers it to the callback, and nothing is cached and no token
usage is attached — but the `LLMResponse` is returned before any chunk
is processed, so its `text` is the placeholder `""`, not the
accumulated `"hi"` the claim (and the source's own comment about
building the final response from the received chunks) promises. -/
theorem claim_C4_streaming_placeholder :
    (sendRequest envC4 0 [] reqC4).result
        = .ok { text := "", provider := "OpenAI", model := "gpt-4-turbo", tokenUsage := none } ∧
      (sendRequest envC4 0 [] reqC4).streamUpdates = ["hi"] ∧
      (sendRequest envC4 0 [] reqC4).cache = [] ∧
      processChunks envC4 (openaiConfig "ok") "" ["data: X"] = ("hi", ["hi"]) := by
  simp only [sendRequest_eq_flat]
  exact ⟨rfl, rfl, rfl, rfl⟩

/-- C2 counterexample: the first call of two identical non-streaming
requests completes successfully (through the provider-fallback retry,
which stores the response under the cleared `auto` fingerprint, not the
request's own); the second call at the same instant — well within the
TTL — returns that stored response, yet still performs a transport
dispatch, refuting "performs no transport dispatch". -/
theorem claim_C2_counterexample :
    (sendRequest envC2 0 [] reqC2).result
        = .ok { text := "salut", provider := "OpenAI", model := "gpt-4-turbo",
                tokenUsage := some ⟨Json.num 0, Json.num 0, Json.num 0⟩ } ∧
      (sendRequest envC2 0 (sendRequest envC2 0 [] reqC2).cache reqC2).dispatches.length
        = 1 := by
  simp only [sendRequest_eq_flat]
  exact ⟨rfl, rfl⟩

/-- C2 amended: restricted to a first call whose response was stored
under its own fingerprint (no provider-fallback retry was involved —
the retry stores under the cleared fingerprint instead, see the
counterexample). Then a second identical non-streaming request within
the TTL returns exactly the stored response with no transport dispatch,
and after the TTL it misses the cache; if its fresh dispatch succeeds,
it returns that fresh response and stores it under the fingerprint with
the new timestamp. -/
theorem claim_C2_amended :
    ∀ env t1 t2 cache1 req1 req2 resp,
      req2.streaming = false →
      createCacheKey req1 = createCacheKey req2 →
      (sendRequest env t1 cache1 req1).result = .ok resp →
      cacheLookup (sendRequest env t1 cache1 req1).cache (createCacheKey req1)
          = some ⟨resp, t1⟩ →
      ((t2 - t1 < CACHE_DURATION →
          (sendRequest env t2 (sendRequest env t1 cache1 req1).cache req2).result
              = .ok resp ∧
            (sendRequest env t2 (sendRequest env t1 cache1 req1).cache req2).dispatches
              = []) ∧
        (¬ t2 - t1 < CACHE_DURATION →
          ∀ p r,
            getBestProvider env.providers req2.provider = some p →
            (tryDispatch env t2 req2 p
                (jsStrOr req2.model (jsStrOr p.models.head? ""))).result = .ok r →
            (sendRequest env t2 (sendRequest env t1 cache1 req1).cache req2).result
                = .ok r ∧
              cacheLookup
                  (sendRequest env t2 (sendRequest env t1 cache1 req1).cache req2).cache
                  (createCacheKey req2) = some ⟨r, t2⟩ ∧
              (sendRequest env t2 (sendRequest env t1 cache1 req1).cache req2).dispatches
                ≠ [])) := by
  intro env t1 t2 cache1 req1 req2 resp hs2 hkey hok1 hstore1
  have hl2 : cacheLookup (sendRequest env t1 cache1 req1).cache (createCacheKey req2)
      = some ⟨resp, t1⟩ := hkey ▸ hstore1
  constructor
  · intro hfresh
    rw [sendRequest_eq_flat]
    unfold sendRequestFlat
    rw [sendRequestCore_hit env t2 (sendRequest env t1 cache1 req1).cache req2
      ⟨resp, t1⟩ hs2 hl2 hfresh]
    exact ⟨rfl, rfl⟩
  · intro hstale p r hg hokd
    obtain ⟨hst, hnd⟩ := tryDispatch_ok_sync hs2 hokd
    have hcore : sendRequestCore env t2 (sendRequest env t1 cache1 req1).cache req2
        = selectAndDispatch env t2 (sendRequest env t1 cache1 req1).cache req2 :=
      sendRequestCore_stale env t2 (sendRequest env t1 cache1 req1).cache req2
        ⟨resp, t1⟩ hs2 hl2 hstale
    have hsad : selectAndDispatch env t2 (sendRequest env t1 cache1 req1).cache req2 =
        ⟨.ok r,
          cachePut (sendRequest env t1 cache1 req1).cache (createCacheKey req2) ⟨r, t2⟩,
          (tryDispatch env t2 req2 p
            (jsStrOr req2.model (jsStrOr p.models.head? ""))).dispatches,
          (tryDispatch env t2 req2 p
            (jsStrOr req2.model (jsStrOr p.models.head? ""))).streamUpdates⟩ := by
      unfold selectAndDispatch
      rw [hg]
      dsimp only
      rw [hokd]
      dsimp only
      rw [hst]
    rw [sendRequest_eq_flat]
    unfold sendRequestFlat
    rw [hcore, hsad]
    exact ⟨rfl, by rw [cacheLookup_cachePut], hnd⟩

/-- Witness for C2's amended statement: the second identical request,
10 ms after the first, is served from the cache with no dispatch. -/
theorem claim_C2_witness :
    (sendRequest envC2w 10 (sendRequest envC2w 0 [] reqC2w).cache reqC2w).result
        = .ok respC2w ∧
      (sendRequest envC2w 10 (sendRequest envC2w 0 [] reqC2w).cache reqC2w).dispatches
        = [] :=
  (claim_C2_amended envC2w 0 10 [] reqC2w reqC2w respC2w rfl rfl
      (by simp only [sendRequest_eq_flat]; rfl)
      (by simp only [sendRequest_eq_flat]; rfl)).1 (by decide)
